import Mathlib

/-!
Verification development for the `ai-sales-agent` repository.

The Python sources under `src/core/intent_signal_finder.py` and
`src/services/linkedin_scraper.py` are shallowly embedded below.  Python
strings are modelled as `String` or `List Char` (character lists, where
character-level manipulation matters); Python exceptions are modelled with
`Except`; external HTTP / LLM collaborators are modelled as explicit oracle
functions passed in as parameters.
-/

namespace SalesAgent

/-- Python-style truthiness of an optional string (`None` and `""` are falsy). -/
def isTruthy : Option String → Bool
  | none => false
  | some s => !s.isEmpty

/-- Model of Python exceptions that the embedded code can raise. -/
inductive PyError where
  | typeError
  | valueError
  deriving DecidableEq, Repr

/-- Model of `str.startswith` on character lists. -/
def pyStartsWith : List Char → List Char → Bool
  | _, [] => true
  | [], _ :: _ => false
  | a :: as_, b :: bs => a == b && pyStartsWith as_ bs

/-- Model of `str.strip()`: drop whitespace from both ends. -/
def pyStrip (l : List Char) : List Char :=
  ((l.dropWhile Char.isWhitespace).reverse.dropWhile Char.isWhitespace).reverse

/-- Model of `re.sub(r'^PAT\n', '', s)` for a literal pattern anchored at the
start: remove the leading occurrence if present, else leave unchanged. -/
def pyStripLead (l pre : List Char) : List Char :=
  if pyStartsWith l pre then l.drop pre.length else l

/-- Model of `str.endswith` on character lists. -/
def pyEndsWith (l suf : List Char) : Bool :=
  pyStartsWith l.reverse suf.reverse

/-- Model of `re.sub(r'\nPAT$', '', s)` for a literal pattern anchored at the
end of an already-stripped string: remove the trailing occurrence if present. -/
def pyStripTail (l suf : List Char) : List Char :=
  if pyEndsWith l suf then l.take (l.length - suf.length) else l

/-- Fuel-based worker for `pySplit` (fuel bounds the number of consumed
characters, keeping the recursion structural). -/
def pySplitAux (sep : List Char) : Nat → List Char → List Char → List (List Char)
  | _, [], acc => [acc.reverse]
  | 0, l, acc => [acc.reverse ++ l]
  | fuel + 1, a :: rest, acc =>
    if pyStartsWith (a :: rest) sep then
      acc.reverse :: pySplitAux sep fuel ((a :: rest).drop sep.length) []
    else pySplitAux sep fuel rest (a :: acc)

/-- Model of Python `str.split(sep)` for a non-empty separator: split on
every non-overlapping occurrence, left to right, keeping empty parts. -/
def pySplit (l sep : List Char) : List (List Char) :=
  pySplitAux sep l.length l []

/-- Model of Python `needle in hay` substring membership. -/
def pyContains : List Char → List Char → Bool
  | [], needle => needle.isEmpty
  | a :: rest, needle => pyStartsWith (a :: rest) needle || pyContains rest needle

/-- Embedding of the fence-removal part of `_clean_json_string`
(`src/core/intent_signal_finder.py` lines 36-46): strip, then remove a
leading triple-backtick fence (tagged `json` or untagged) and the matching
trailing fence, then strip again. -/
def cleanJsonCore (l : List Char) : List Char :=
  let c := pyStrip l
  if pyStartsWith c "```json".toList then
    pyStrip (pyStripTail (pyStripLead c "```json\n".toList) "\n```".toList)
  else if pyStartsWith c "```".toList then
    pyStrip (pyStripTail (pyStripLead c "```\n".toList) "\n```".toList)
  else c

/-- Embedding of `_clean_json_string` (lines 26-63): clean the text, then
validate it with `json.loads` (abstracted as the `valid` oracle); an invalid
result raises `json.JSONDecodeError` (modelled as `Except.error`). -/
def cleanJsonString (valid : List Char → Bool) (l : List Char) :
    Except Unit (List Char) :=
  let c := cleanJsonCore l
  if valid c then .ok c else .error ()

/-- A structured search query as produced by the planner
(data model `SearchQuery`). -/
structure SearchQuery where
  query : String
  signal_category : String
  purpose : String
  source_type : String
  deriving DecidableEq, Repr

/-- An element of a plan's `search_queries` list at runtime: a fresh plan
holds dicts (`SearchQuery`), while a narrowed tracked plan holds plain
strings (see `find_intent_signals` line 630). -/
inductive QueryEntry where
  | dict (q : SearchQuery)
  | str (s : String)
  deriving DecidableEq, Repr

/-- A fetched page (data model `PageResult`); content is a character list. -/
structure PageResult where
  url : String
  content : List Char
  deriving DecidableEq, Repr

/-- One organic search result from the SERP API; `link` may be absent. -/
structure OrganicResult where
  link : Option String
  deriving DecidableEq, Repr

/-- Outcome of one SERP API call: an exception, or an HTTP status together
with the parsed `organic_results` list (absent key modelled as `[]`, matching
`serp_data.get('organic_results', [])`). -/
inductive SerpOutcome where
  | exn
  | resp (status : Nat) (organic : List OrganicResult)
  deriving DecidableEq, Repr

/-- Outcome of one content-extraction (`r.jina.ai`) fetch. -/
inductive FetchOutcome where
  | exn
  | resp (status : Nat) (content : List Char)
  deriving DecidableEq, Repr

/-- Embedding of `'content': page_content[:5000] + "..."` (line 196): the
stored page content is the 5000-character prefix with `"..."` appended,
unconditionally. -/
def storePageContent (c : List Char) : List Char :=
  c.take 5000 ++ "...".toList

/-- Embedding of the per-query body of `search_pages` (lines 166-204) for a
well-formed dict query: a SERP exception or non-200 status contributes no
pages; otherwise each of the first `numPages` organic results with a link is
fetched, and fetch exceptions or non-200 fetches skip just that page. -/
def processQuery (serp : String → String → SerpOutcome)
    (fetch : String → FetchOutcome) (numPages : Nat) (tbs : String)
    (q : SearchQuery) : List PageResult :=
  match serp tbs q.query with
  | .exn => []
  | .resp status organic =>
    if status = 200 then
      (organic.take numPages).flatMap (fun r =>
        match r.link with
        | none => []
        | some link =>
          match fetch link with
          | .exn => []
          | .resp st content =>
            if st = 200 then [⟨link, storePageContent content⟩] else [])
    else []

/-- Recursive worker for `search_pages`: processes query entries in order.
A plain-string entry raises: `query.get('query', '')` on a `str` raises
`AttributeError`, caught at line 202, whose handler evaluates
`query['query']` (line 203) raising `TypeError`, which propagates.  The
first component of the result is the trace of query texts sent to the
search API. -/
def searchPagesGo (serp : String → String → SerpOutcome)
    (fetch : String → FetchOutcome) (numPages : Nat) (tbs : String) :
    List QueryEntry → Except PyError (List String × List PageResult)
  | [] => .ok ([], [])
  | .str _ :: _ => .error .typeError
  | .dict q :: rest => do
    let (ts, ps) ← searchPagesGo serp fetch numPages tbs rest
    .ok (q.query :: ts, processQuery serp fetch numPages tbs q ++ ps)

/-- Embedding of `search_pages` (lines 158-207).  Only the first two entries
of the input list are processed (`queries[:2]`, line 165).  Returns the
search-API call trace together with the accumulated page results. -/
def search_pages (serp : String → String → SerpOutcome)
    (fetch : String → FetchOutcome) (numPages : Nat) (tbs : String)
    (queries : List QueryEntry) :
    Except PyError (List String × List PageResult) :=
  searchPagesGo serp fetch numPages tbs (queries.take 2)

/-- Error raised by the planning step (`generate_intent_signals`):
`malformed` models the `json.JSONDecodeError` escaping `_clean_json_string`
when the cleaned text is not valid JSON; `incomplete` models the
`ValueError("Missing required keys ...")` of line 148. -/
inductive PlanError where
  | malformed
  | incomplete (missing : List String)
  deriving DecidableEq, Repr

/-- The five required top-level keys checked at line 145. -/
def requiredKeys : List String :=
  ["intent_components", "signal_categories", "source_mapping",
   "query_components", "search_queries"]

/-- Embedding of `[key for key in required_keys if key not in result]`
(line 146), where `ks` is the key set of the parsed JSON object. -/
def missingKeys (ks : List String) : List String :=
  requiredKeys.filter (fun k => !(ks.contains k))

/-- Embedding of the response-validation part of `generate_intent_signals`
(lines 140-152).  The LLM transport is abstracted away: `response` is the
response text, and `parse` abstracts `json.loads`, returning the top-level
key list of the parsed object or `none` on a JSON decode error.  The text is
cleaned by `_clean_json_string` (which already validates via `json.loads`),
parsed, and the required-key check is applied. -/
def generate_intent_signals (parse : List Char → Option (List String))
    (response : List Char) : Except PlanError (List String) :=
  match parse (cleanJsonCore response) with
  | none => .error .malformed
  | some ks =>
    let missing := missingKeys ks
    if missing.isEmpty then .ok ks else .error (.incomplete missing)

/-- A contact record assembled by `find_company_contacts` (lines 470-481). -/
structure Contact where
  name : String
  linkedin_url : String
  job_title : String
  role : String
  headline : String
  email : String
  company : String
  signals : List String
  reasoning : String
  url : String
  deriving DecidableEq, Repr

/-- A company extracted by the signal analyzer (data model `CompanySignal`). -/
structure CompanySignal where
  company : String
  signals : List String
  reasoning : String
  url : String
  deriving DecidableEq, Repr

/-- A LinkedIn profile as parsed by `LinkedInScraper._parse_google_results`. -/
structure Profile where
  name : String
  profile_url : String
  headline : String
  summary : String
  deriving DecidableEq, Repr

/-- Embedding of `IntentSignalFinder.get_email` (lines 418-445).  The body
begins with an unconditional `return ""` (line 420); everything after it
(format caching, `discover_company_email_formats`,
`generate_employee_emails`) is unreachable dead code, so the function is the
constant empty string. -/
def get_email (_employee_name _company_name : String) : String := ""

/-- Embedding of `find_company_contacts` (lines 447-488).  `getRoles`
abstracts `get_decision_makers` (which returns `[]` on any failure) and
`profSearch` abstracts `linkedin_scraper.search_profiles`.  For each role
and each returned profile a `Contact` is assembled; the email comes from
`get_email` and the job title is the headline unless it equals the company
name. -/
def find_company_contacts (getRoles : String → String → List String)
    (profSearch : String → String → Nat → List Profile)
    (company : CompanySignal) (user_input : String) : List Contact :=
  (getRoles company.company user_input).flatMap (fun role =>
    (profSearch company.company role 2).map (fun profile =>
      { name := profile.name
        linkedin_url := profile.profile_url
        job_title :=
          if profile.headline ≠ company.company then profile.headline else ""
        role := role
        headline := profile.headline
        email := get_email profile.name company.company
        company := company.company
        signals := company.signals
        reasoning := company.reasoning
        url := company.url }))

/-- A search plan (data model `SearchPlan`).  The auxiliary maps are carried
as association lists; only `signal_categories` and `search_queries` are read
by `find_intent_signals`. -/
structure Plan where
  intent_components : List (String × String)
  signal_categories : List (String × List String)
  source_mapping : List (String × List String)
  query_components : List (String × List String)
  search_queries : List QueryEntry
  deriving DecidableEq, Repr

/-- Instance state of `IntentSignalFinder` relevant to run tracking:
`self.user_input` and `self.signals_to_track`. -/
structure FinderState where
  user_input : Option String
  signals_to_track : Option Plan
  deriving DecidableEq, Repr

/-- The observable output of one `find_intent_signals` run: the recency
filter (`tbs`) passed to `search_pages`, plus the returned dictionary
(lines 640-644). -/
structure RunOutput where
  tbs : String
  intent_signals : List (String × List String)
  successful_queries : List String
  contacts : List Contact
  deriving DecidableEq, Repr

/-- Embedding of the successful-query tracking loop (lines 617-626).  For
each entry of the plan's query list, if any page URL is among the contact
URLs, `query['query']` is appended (which raises `TypeError` when the entry
is a plain string) and the inner loop breaks.  The membership test happens
before the `query['query']` access. -/
def successfulQueriesGo (pages : List PageResult) (urls : List String) :
    List QueryEntry → Except PyError (List String)
  | [] => .ok []
  | e :: rest =>
    if pages.any (fun p => urls.contains p.url) then
      match e with
      | .str _ => .error .typeError
      | .dict q => do
        let t ← successfulQueriesGo pages urls rest
        .ok (q.query :: t)
    else successfulQueriesGo pages urls rest

/-- Embedding of `find_intent_signals` (lines 591-650).  Oracles: `genPlan`
abstracts `generate_intent_signals` (whole planning call, may raise);
`serp`/`fetch` abstract the search and content-fetch APIs inside
`search_pages`; `analyze` abstracts `analyze_intent_signals`.  Returns the
updated instance state together with the run output. -/
def find_intent_signals (genPlan : String → Except PyError Plan)
    (serp : String → String → SerpOutcome) (fetch : String → FetchOutcome)
    (analyze : List PageResult → Option String → List Contact)
    (st : FinderState) (user_input : Option String) :
    Except PyError (FinderState × RunOutput) := do
  let (st1, signalsData) ←
    if isTruthy user_input then do
      let p ← genPlan (user_input.getD "")
      pure ({ st with user_input := user_input }, p)
    else
      match st.signals_to_track with
      | some p => pure (st, p)
      | none => Except.error PyError.valueError
  let tbs := if isTruthy st1.user_input then "qdr:m3" else "qdr:d"
  let (_, pages) ← search_pages serp fetch 2 tbs signalsData.search_queries
  let contacts := analyze pages st1.user_input
  let successfulUrls := contacts.map (fun c => c.url)
  let succQueries ←
    successfulQueriesGo pages successfulUrls signalsData.search_queries
  let filtered :=
    { signalsData with search_queries := succQueries.map QueryEntry.str }
  let st2 := { st1 with signals_to_track := some filtered }
  .ok (st2, { tbs := tbs
              intent_signals := signalsData.signal_categories
              successful_queries := succQueries
              contacts := contacts })

/-- One organic result consumed by `LinkedInScraper._parse_google_results`
(with a mandatory `link` and `title`, and an optional `snippet`). -/
structure SearchItem where
  link : String
  title : String
  snippet : Option String
  deriving DecidableEq, Repr

/-- Embedding of the profile assembly inside `_parse_google_results`
(`src/services/linkedin_scraper.py` lines 70-83): split the title on
`" - "`, take the name from the first part, and the headline from the
second part up to `" | "` when present. -/
def profileOfItem (item : SearchItem) : Profile :=
  let titleParts := pySplit item.title.toList " - ".toList
  { name := String.mk (pyStrip (titleParts.headD []))
    profile_url := item.link
    headline :=
      if titleParts.length > 1 then
        String.mk ((pySplit (titleParts.getD 1 []) " | ".toList).headD [])
      else ""
    summary := item.snippet.getD "" }

/-- Embedding of `_parse_google_results` (lines 58-88): keep items whose
link contains `linkedin.com/in/`, and keep the assembled profile only when
the company name occurs case-insensitively in the title. -/
def parseGoogleResults (items : List SearchItem) (company_name : String) :
    List Profile :=
  items.flatMap (fun item =>
    if pyContains item.link.toList "linkedin.com/in/".toList then
      if pyContains (item.title.toList.map Char.toLower)
          (company_name.toList.map Char.toLower) then
        [profileOfItem item]
      else []
    else [])

/-- Embedding of `LinkedInScraper.search_profiles` (lines 25-56).  The HTTP
exchange is abstracted as `resp`: an exception, or a status paired with the
optional `organic_results` field of the body.  Any exception returns `[]`;
a non-200 status returns `[]`; a 200 body lacking `organic_results` raises
`KeyError` at the logging line 48, caught by the outer handler, returning
`[]`. -/
def search_profiles (resp : Except Unit (Nat × Option (List SearchItem)))
    (company_name : String) : List Profile :=
  match resp with
  | .error _ => []
  | .ok (status, organic) =>
    if status = 200 then
      match organic with
      | none => []
      | some items => parseGoogleResults items company_name
    else []

/-! Concrete fixtures used to evaluate the embedded pipeline at specific
inputs (end-to-end style scenarios and witnesses). -/

/-- Scenario query A. -/
def qA : SearchQuery := ⟨"query A", "hiring", "find signals", "news"⟩

/-- Scenario query B. -/
def qB : SearchQuery := ⟨"query B", "funding", "find signals", "news"⟩

/-- Scenario plan holding queries A and B. -/
def planAB : Plan :=
  { intent_components := [("primary_focus", "AI")]
    signal_categories := [("hiring", ["AI engineer roles"])]
    source_mapping := [("news", ["press"])]
    query_components := [("base_terms", ["healthcare"])]
    search_queries := [.dict qA, .dict qB] }

/-- Scenario planner oracle that always returns `planAB`. -/
def genPlanAB : String → Except PyError Plan := fun _ => .ok planAB

/-- Scenario search API: query A yields two pages, query B yields one. -/
def serpAB : String → String → SerpOutcome := fun _ q =>
  if q = "query A" then .resp 200 [⟨some "urlA1"⟩, ⟨some "urlA2"⟩]
  else .resp 200 [⟨some "urlB1"⟩]

/-- Scenario content fetcher that always succeeds. -/
def fetchOK : String → FetchOutcome := fun _ => .resp 200 "page text".toList

/-- Scenario contact extracted from query A's first page (`urlA1`). -/
def contactA : Contact :=
  { name := "Jane Roe", linkedin_url := "lk", job_title := "CTO"
    role := "CTO", headline := "CTO", email := "", company := "HealthTech Inc"
    signals := ["hiring AI engineers"], reasoning := "strong fit"
    url := "urlA1" }

/-- Scenario analyzer yielding exactly `contactA` (whose source page is
query A's page `urlA1`). -/
def analyzeA : List PageResult → Option String → List Contact :=
  fun _ _ => [contactA]

/-- Scenario analyzer yielding no contacts. -/
def analyzeNone : List PageResult → Option String → List Contact :=
  fun _ _ => []

/-- Scenario fresh-run user input. -/
def healthInput : String := "healthcare companies hiring AI engineers"

/-- Witness search API whose first query fails with HTTP 500. -/
def serpW : String → String → SerpOutcome := fun _ q =>
  if q = "q1" then .resp 500 [] else .resp 200 [⟨some "L1"⟩, ⟨some "L2"⟩]

/-- Witness search API that always throws. -/
def serpE : String → String → SerpOutcome := fun _ _ => .exn

/-- Witness fetcher that throws on `L1` and succeeds elsewhere. -/
def fetchW : String → FetchOutcome := fun link =>
  if link = "L1" then .exn else .resp 200 "body".toList

/-- Witness role oracle returning one role. -/
def rolesW : String → String → List String := fun _ _ => ["CTO"]

/-- Witness profile-search oracle returning one profile. -/
def profSearchW : String → String → Nat → List Profile :=
  fun _ _ _ => [⟨"Jane Roe", "https://linkedin.com/in/janeroe", "CTO at HealthTech Inc", "snippet"⟩]

/-- Witness company signal record. -/
def companyW : CompanySignal :=
  ⟨"HealthTech Inc", ["hiring"], "fit", "urlA1"⟩

/-- Witness parsed search item pointing at a LinkedIn profile. -/
def itemW : SearchItem :=
  ⟨"https://linkedin.com/in/janeroe",
   "Jane Roe - CTO at HealthTech Inc | LinkedIn", some "extra info"⟩

/-! Helper lemmas about the Python string operations. -/

theorem pyStartsWith_app (p r : List Char) : pyStartsWith (p ++ r) p = true := by
  induction p with
  | nil => cases r <;> rfl
  | cons a as_ ih => simp [pyStartsWith, ih]

theorem pyStartsWith_pre (l p q : List Char)
    (h : pyStartsWith l (p ++ q) = true) : pyStartsWith l p = true := by
  induction p generalizing l with
  | nil => cases l <;> rfl
  | cons a as_ ih =>
    cases l with
    | nil => simp [pyStartsWith] at h
    | cons x xs =>
      simp [pyStartsWith] at h ⊢
      exact ⟨h.1, ih xs h.2⟩

theorem pyStripLead_app (p r : List Char) : pyStripLead (p ++ r) p = r := by
  simp [pyStripLead, pyStartsWith_app, List.drop_left]

theorem pyEndsWith_app (r s : List Char) : pyEndsWith (r ++ s) s = true := by
  simp [pyEndsWith, List.reverse_append, pyStartsWith_app]

theorem pyStripTail_app (r s : List Char) : pyStripTail (r ++ s) s = r := by
  simp [pyStripTail, pyEndsWith_app]

theorem pyStrip_sandwich (a b : Char) (ha : a.isWhitespace = false)
    (hb : b.isWhitespace = false) (m : List Char) :
    pyStrip (a :: (m ++ [b])) = a :: (m ++ [b]) := by
  simp [pyStrip, List.dropWhile_cons, ha, hb, List.reverse_append]

theorem cleanFenceTagged (j : List Char) (valid : List Char → Bool)
    (h : valid (pyStrip j) = true) :
    cleanJsonString valid ("```json\n".toList ++ j ++ "\n```".toList) =
      .ok (pyStrip j) := by
  set s := "```json\n".toList ++ j ++ "\n```".toList with hs
  have hstrip : pyStrip s = s := by
    have hshape : s = '`' :: (("``json\n".toList ++ j ++ "\n``".toList) ++ ['`']) := by
      simp [hs, List.append_assoc]
    rw [hshape]
    exact pyStrip_sandwich _ _ (by decide) (by decide) _
  have hbranch : pyStartsWith s "```json".toList = true := by
    have h2 : s = "```json".toList ++ ('\n' :: (j ++ "\n```".toList)) := by
      simp [hs, List.append_assoc]
    rw [h2]; exact pyStartsWith_app _ _
  have hlead : pyStripLead s "```json\n".toList = j ++ "\n```".toList := by
    have h2 : s = "```json\n".toList ++ (j ++ "\n```".toList) := by
      simp [hs, List.append_assoc]
    rw [h2, pyStripLead_app]
  have hcore : cleanJsonCore s = pyStrip j := by
    simp only [cleanJsonCore, hstrip, hbranch, if_true]
    rw [hlead, pyStripTail_app]
  simp [cleanJsonString, hcore, h]

theorem cleanFenceUntagged (j : List Char) (valid : List Char → Bool)
    (h : valid (pyStrip j) = true) :
    cleanJsonString valid ("```\n".toList ++ j ++ "\n```".toList) =
      .ok (pyStrip j) := by
  set s := "```\n".toList ++ j ++ "\n```".toList with hs
  have hstrip : pyStrip s = s := by
    have hshape : s = '`' :: (("``\n".toList ++ j ++ "\n``".toList) ++ ['`']) := by
      simp [hs, List.append_assoc]
    rw [hshape]
    exact pyStrip_sandwich _ _ (by decide) (by decide) _
  have hnotag : pyStartsWith s "```json".toList = false := by
    rw [hs]; rfl
  have hbranch : pyStartsWith s "```".toList = true := by
    have h2 : s = "```".toList ++ ('\n' :: (j ++ "\n```".toList)) := by
      simp [hs, List.append_assoc]
    rw [h2]; exact pyStartsWith_app _ _
  have hlead : pyStripLead s "```\n".toList = j ++ "\n```".toList := by
    have h2 : s = "```\n".toList ++ (j ++ "\n```".toList) := by
      simp [hs, List.append_assoc]
    rw [h2, pyStripLead_app]
  have hcore : cleanJsonCore s = pyStrip j := by
    simp only [cleanJsonCore, hstrip, hnotag, Bool.false_eq_true, if_false,
      hbranch, if_true]
    rw [hlead, pyStripTail_app]
  simp [cleanJsonString, hcore, h]

theorem cleanFencePlain (s : List Char) (valid : List Char → Bool)
    (hplain : pyStartsWith (pyStrip s) "```".toList = false)
    (h : valid (pyStrip s) = true) :
    cleanJsonString valid s = .ok (pyStrip s) := by
  have hnotag : pyStartsWith (pyStrip s) "```json".toList = false := by
    cases hj : pyStartsWith (pyStrip s) "```json".toList with
    | false => rfl
    | true =>
      have h3 : pyStartsWith (pyStrip s) "```".toList = true := by
        have hsplit : ("```json".toList : List Char) =
            "```".toList ++ "json".toList := rfl
        exact pyStartsWith_pre _ _ _ (by rw [← hsplit]; exact hj)
      rw [h3] at hplain; exact absurd hplain (by simp)
  have hcore : cleanJsonCore s = pyStrip s := by
    simp only [cleanJsonCore, hnotag, Bool.false_eq_true, if_false, hplain]
  simp [cleanJsonString, hcore, h]

/-- C4: the JSON-cleaning step strips a leading/trailing triple-backtick
fence (with or without the `json` tag) together with surrounding
whitespace, and the result passes JSON validation; input without a fence is
returned unchanged apart from whitespace stripping.  `valid` abstracts
`json.loads` succeeding, and each conclusion's `.ok` carries the cleaned
text. -/
theorem c4_fence_stripping :
    (∀ (j : List Char) (valid : List Char → Bool),
      valid (pyStrip j) = true →
        cleanJsonString valid ("```json\n".toList ++ j ++ "\n```".toList) =
          .ok (pyStrip j)) ∧
    (∀ (j : List Char) (valid : List Char → Bool),
      valid (pyStrip j) = true →
        cleanJsonString valid ("```\n".toList ++ j ++ "\n```".toList) =
          .ok (pyStrip j)) ∧
    (∀ (s : List Char) (valid : List Char → Bool),
      pyStartsWith (pyStrip s) "```".toList = false →
      valid (pyStrip s) = true →
        cleanJsonString valid s = .ok (pyStrip s)) :=
  ⟨cleanFenceTagged, cleanFenceUntagged, cleanFencePlain⟩

/-- Witness for `c4_fence_stripping` at concrete inputs. -/
theorem c4_fence_stripping_witness :
    ((fun c => c == "ok token".toList) (pyStrip "ok token".toList) = true ∧
      cleanJsonString (fun c => c == "ok token".toList)
        ("```json\n".toList ++ "ok token".toList ++ "\n```".toList) =
        .ok (pyStrip "ok token".toList)) ∧
    (cleanJsonString (fun c => c == "ok token".toList)
        ("```\n".toList ++ "ok token".toList ++ "\n```".toList) =
        .ok (pyStrip "ok token".toList)) ∧
    (pyStartsWith (pyStrip "  ok token ".toList) "```".toList = false ∧
      cleanJsonString (fun c => c == "ok token".toList) "  ok token ".toList =
        .ok (pyStrip "  ok token ".toList)) :=
  ⟨⟨by decide,
    c4_fence_stripping.1 "ok token".toList (fun c => c == "ok token".toList)
      (by decide)⟩,
   c4_fence_stripping.2.1 "ok token".toList (fun c => c == "ok token".toList)
     (by decide),
   by decide,
   c4_fence_stripping.2.2 "  ok token ".toList (fun c => c == "ok token".toList)
     (by decide) (by decide)⟩

/-- On a list of well-formed dict queries, the `search_pages` worker never
raises: it returns the query-text trace together with the concatenated
per-query page results. -/
theorem searchPagesGo_dicts (serp : String → String → SerpOutcome)
    (fetch : String → FetchOutcome) (n : Nat) (tbs : String)
    (qs : List SearchQuery) :
    searchPagesGo serp fetch n tbs (qs.map .dict) =
      .ok (qs.map (fun q => q.query),
           qs.flatMap (processQuery serp fetch n tbs)) := by
  induction qs with
  | nil => rfl
  | cons q rest ih =>
    simp only [List.map_cons, searchPagesGo, ih]
    rfl

/-- C2: `search_pages` sends only the first two queries of its input list
to the search API, whatever the list length: the issued-call trace is
exactly the query texts of `queries.take 2`, so at most 2 search-API calls
are made. -/
theorem c2_search_query_cap :
    ∀ (serp : String → String → SerpOutcome) (fetch : String → FetchOutcome)
      (n : Nat) (tbs : String) (qs : List SearchQuery),
      search_pages serp fetch n tbs (qs.map .dict) =
        .ok ((qs.take 2).map (fun q => q.query),
             (qs.take 2).flatMap (processQuery serp fetch n tbs)) ∧
      ((qs.take 2).map (fun q => q.query)).length ≤ 2 := by
  intro serp fetch n tbs qs
  constructor
  · rw [search_pages, ← List.map_take, searchPagesGo_dicts]
  · rw [List.length_map, List.length_take]
    exact min_le_left _ _

/-- C3: `search_pages` tolerates partial failure on well-formed queries:
it never raises; a non-200 search status for either of two queries skips
just that query, leaving exactly the succeeding query's pages; a fetch
exception for one link skips just that page; and when every search call
throws the result is the empty page list. -/
theorem c3_failure_tolerance :
    (∀ (serp : String → String → SerpOutcome) (fetch : String → FetchOutcome)
       (n : Nat) (tbs : String) (qs : List SearchQuery),
       ∃ res, search_pages serp fetch n tbs (qs.map .dict) = .ok res) ∧
    (∀ (serp : String → String → SerpOutcome) (fetch : String → FetchOutcome)
       (n : Nat) (tbs : String) (q1 q2 : SearchQuery) (c : Nat)
       (org : List OrganicResult),
       serp tbs q1.query = .resp c org → c ≠ 200 →
       (search_pages serp fetch n tbs [.dict q1, .dict q2]).map Prod.snd =
         .ok (processQuery serp fetch n tbs q2)) ∧
    (∀ (serp : String → String → SerpOutcome) (fetch : String → FetchOutcome)
       (n : Nat) (tbs : String) (q1 q2 : SearchQuery) (c : Nat)
       (org : List OrganicResult),
       serp tbs q2.query = .resp c org → c ≠ 200 →
       (search_pages serp fetch n tbs [.dict q1, .dict q2]).map Prod.snd =
         .ok (processQuery serp fetch n tbs q1)) ∧
    (∀ (serp : String → String → SerpOutcome) (fetch : String → FetchOutcome)
       (tbs : String) (q : SearchQuery) (l1 l2 : String) (c2 : List Char),
       serp tbs q.query = .resp 200 [⟨some l1⟩, ⟨some l2⟩] →
       fetch l1 = .exn → fetch l2 = .resp 200 c2 →
       processQuery serp fetch 2 tbs q = [⟨l2, storePageContent c2⟩]) ∧
    (∀ (serp : String → String → SerpOutcome) (fetch : String → FetchOutcome)
       (n : Nat) (tbs : String) (qs : List SearchQuery),
       (∀ q ∈ qs, serp tbs q.query = SerpOutcome.exn) →
       (search_pages serp fetch n tbs (qs.map .dict)).map Prod.snd =
         .ok []) := by
  refine ⟨?_, ?_, ?_, ?_, ?_⟩
  · intro serp fetch n tbs qs
    exact ⟨_, by rw [search_pages, ← List.map_take, searchPagesGo_dicts]⟩
  · intro serp fetch n tbs q1 q2 c org h hc
    rw [search_pages]
    rw [show (([QueryEntry.dict q1, QueryEntry.dict q2] : List QueryEntry).take 2) =
      [q1, q2].map .dict from rfl]
    rw [searchPagesGo_dicts]
    have hq1 : processQuery serp fetch n tbs q1 = [] := by
      simp [processQuery, h, hc]
    simp [hq1]
    rfl
  · intro serp fetch n tbs q1 q2 c org h hc
    rw [search_pages]
    rw [show (([QueryEntry.dict q1, QueryEntry.dict q2] : List QueryEntry).take 2) =
      [q1, q2].map .dict from rfl]
    rw [searchPagesGo_dicts]
    have hq2 : processQuery serp fetch n tbs q2 = [] := by
      simp [processQuery, h, hc]
    simp [hq2]
    rfl
  · intro serp fetch tbs q l1 l2 c2 hs h1 h2
    simp [processQuery, hs, h1, h2]
  · intro serp fetch n tbs qs h
    rw [search_pages, ← List.map_take, searchPagesGo_dicts]
    have hnil : (qs.take 2).flatMap (processQuery serp fetch n tbs) = [] := by
      rw [List.flatMap_eq_nil_iff]
      intro q hq
      simp [processQuery, h q (List.take_subset 2 qs hq)]
    simp [hnil]
    rfl

/-- Witness for `c3_failure_tolerance` with the concrete oracles
`serpW` (first query fails with HTTP 500), `fetchW` (first link throws) and
`serpE` (every search call throws). -/
theorem c3_failure_tolerance_witness :
    (serpW "t" "q1" = .resp 500 [] ∧ (500 : Nat) ≠ 200 ∧
      (search_pages serpW fetchW 2 "t"
          [.dict ⟨"q1", "", "", ""⟩, .dict ⟨"q2", "", "", ""⟩]).map Prod.snd =
        .ok (processQuery serpW fetchW 2 "t" ⟨"q2", "", "", ""⟩)) ∧
    (serpW "t" "q2" = .resp 200 [⟨some "L1"⟩, ⟨some "L2"⟩] ∧
      fetchW "L1" = .exn ∧ fetchW "L2" = .resp 200 "body".toList ∧
      processQuery serpW fetchW 2 "t" ⟨"q2", "", "", ""⟩ =
        [⟨"L2", storePageContent "body".toList⟩]) ∧
    ((∀ q ∈ [(⟨"q1", "", "", ""⟩ : SearchQuery)], serpE "t" q.query = SerpOutcome.exn) ∧
      (search_pages serpE fetchW 2 "t"
          ([(⟨"q1", "", "", ""⟩ : SearchQuery)].map .dict)).map Prod.snd = .ok []) :=
  ⟨⟨by decide, by decide,
    c3_failure_tolerance.2.1 serpW fetchW 2 "t" ⟨"q1", "", "", ""⟩
      ⟨"q2", "", "", ""⟩ 500 [] (by decide) (by decide)⟩,
   ⟨by decide, by decide, by decide,
    c3_failure_tolerance.2.2.2.1 serpW fetchW "t" ⟨"q2", "", "", ""⟩
      "L1" "L2" "body".toList (by decide) (by decide) (by decide)⟩,
   by decide,
   c3_failure_tolerance.2.2.2.2 serpE fetchW 2 "t"
     [⟨"q1", "", "", ""⟩] (by decide)⟩

theorem planAcceptedKeys (parse : List Char → Option (List String))
    (r : List Char) (ks : List String)
    (h : generate_intent_signals parse r = .ok ks) :
    ∀ k ∈ requiredKeys, ks.contains k = true := by
  intro k hk
  unfold generate_intent_signals at h
  cases hp : parse (cleanJsonCore r) with
  | none => rw [hp] at h; exact absurd h (by simp)
  | some ks' =>
    rw [hp] at h
    by_cases hm : (missingKeys ks').isEmpty
    · simp [hm] at h
      subst h
      have hnil : missingKeys ks' = [] := by
        simpa [List.isEmpty_iff] using hm
      have h2 := List.filter_eq_nil_iff.mp hnil k hk
      simpa using h2
    · simp [hm] at h

theorem planMissingKey (parse : List Char → Option (List String))
    (r : List Char) (ks : List String)
    (hp : parse (cleanJsonCore r) = some ks)
    (hk : ks.contains "search_queries" = false) :
    ∃ m, generate_intent_signals parse r = .error (.incomplete m) ∧
      "search_queries" ∈ m := by
  have hmem : "search_queries" ∈ missingKeys ks := by
    rw [missingKeys]
    refine List.mem_filter.mpr ⟨by decide, ?_⟩
    simpa using hk
  have hne : (missingKeys ks).isEmpty = false := by
    cases hml : missingKeys ks with
    | nil => rw [hml] at hmem; exact absurd hmem (by simp)
    | cons a l => simp [List.isEmpty]
  refine ⟨missingKeys ks, ?_, hmem⟩
  unfold generate_intent_signals
  rw [hp]
  simp [hne]

/-- C5 counterexample: the claim says a response is accepted only when the
parsed object's keys are exactly the five required ones, but a response
with a sixth key `"extra"` is accepted unchanged — the check only looks
for missing keys. -/
theorem c5_exactly_five_counterexample :
    generate_intent_signals (fun _ => some (requiredKeys ++ ["extra"]))
        "body".toList = .ok (requiredKeys ++ ["extra"]) ∧
    (requiredKeys ++ ["extra"]).length = 6 := by
  constructor
  · rfl
  · rfl

/-- C5 (amended): an accepted response contains at least the five required
top-level keys (extra keys are also accepted); a parsed response lacking
`search_queries` raises the missing-key `ValueError` (the spec's
`IncompleteResponse`) naming `search_queries`; and a response whose cleaned
text is not valid JSON raises `json.JSONDecodeError` (the spec's
`MalformedResponse`). -/
theorem c5_key_validation :
    (∀ (parse : List Char → Option (List String)) (r : List Char)
       (ks : List String),
       generate_intent_signals parse r = .ok ks →
       ∀ k ∈ requiredKeys, ks.contains k = true) ∧
    (∀ (parse : List Char → Option (List String)) (r : List Char)
       (ks : List String),
       parse (cleanJsonCore r) = some ks →
       ks.contains "search_queries" = false →
       ∃ m, generate_intent_signals parse r = .error (.incomplete m) ∧
         "search_queries" ∈ m) ∧
    (∀ (parse : List Char → Option (List String)) (r : List Char),
       parse (cleanJsonCore r) = none →
       generate_intent_signals parse r = .error .malformed) := by
  refine ⟨planAcceptedKeys, planMissingKey, ?_⟩
  intro parse r hp
  unfold generate_intent_signals
  rw [hp]

/-- Witness for `c5_key_validation` at concrete parse oracles. -/
theorem c5_key_validation_witness :
    (generate_intent_signals (fun _ => some requiredKeys) "body".toList =
        .ok requiredKeys ∧
      ∀ k ∈ requiredKeys, requiredKeys.contains k = true) ∧
    ((fun (_ : List Char) => some (["intent_components"] : List String))
        (cleanJsonCore "body".toList) = some ["intent_components"] ∧
      (["intent_components"] : List String).contains "search_queries" = false ∧
      ∃ m, generate_intent_signals
          (fun _ => some (["intent_components"] : List String)) "body".toList =
          .error (.incomplete m) ∧ "search_queries" ∈ m) ∧
    ((fun (_ : List Char) => (none : Option (List String)))
        (cleanJsonCore "body".toList) = none ∧
      generate_intent_signals (fun _ => (none : Option (List String)))
        "body".toList = .error .malformed) :=
  ⟨⟨by rfl, c5_key_validation.1 (fun _ => some requiredKeys) "body".toList
      requiredKeys (by rfl)⟩,
   ⟨by rfl, by rfl,
    c5_key_validation.2.1 (fun _ => some ["intent_components"]) "body".toList
      ["intent_components"] (by rfl) (by rfl)⟩,
   by rfl,
   c5_key_validation.2.2 (fun _ => none) "body".toList (by rfl)⟩

/-- C6 counterexample: content of 3 characters (shorter than the 5000-char
cap) is stored as the content with the `"..."` marker appended, not
verbatim as the claim states. -/
theorem c6_verbatim_counterexample :
    storePageContent "abc".toList = "abc...".toList ∧
    "abc".toList.length ≤ 5000 ∧
    storePageContent "abc".toList ≠ "abc".toList := by
  refine ⟨by rfl, by decide, by decide⟩

theorem processQueryContent (serp : String → String → SerpOutcome)
    (fetch : String → FetchOutcome) (n : Nat) (tbs : String)
    (q : SearchQuery) (p : PageResult)
    (hp : p ∈ processQuery serp fetch n tbs q) :
    ∃ link cont, fetch link = .resp 200 cont ∧
      p = ⟨link, storePageContent cont⟩ := by
  unfold processQuery at hp
  cases hserp : serp tbs q.query with
  | exn => rw [hserp] at hp; simp at hp
  | resp status organic =>
    rw [hserp] at hp
    dsimp only at hp
    split_ifs at hp with h200
    · obtain ⟨r, _, hpr⟩ := List.mem_flatMap.mp hp
      cases hlink : r.link with
      | none => rw [hlink] at hpr; simp at hpr
      | some link =>
        rw [hlink] at hpr
        dsimp only at hpr
        cases hf : fetch link with
        | exn => rw [hf] at hpr; simp at hpr
        | resp st cont =>
          rw [hf] at hpr
          dsimp only at hpr
          split_ifs at hpr with hst
          · subst hst
            exact ⟨link, cont, hf, by simpa using hpr⟩
          · simp at hpr
    · simp at hp

/-- C6 (amended): every stored page content is the 5000-character prefix of
the fetched content with the `"..."` marker appended; content at or below
the cap is therefore stored as the full content plus the marker, not
verbatim.  Every page produced by the search gateway carries such a stored
content for some successfully fetched link. -/
theorem c6_truncation_amended :
    (∀ c : List Char, storePageContent c = c.take 5000 ++ "...".toList) ∧
    (∀ c : List Char, c.length ≤ 5000 →
      storePageContent c = c ++ "...".toList) ∧
    (∀ (serp : String → String → SerpOutcome) (fetch : String → FetchOutcome)
       (n : Nat) (tbs : String) (q : SearchQuery) (p : PageResult),
       p ∈ processQuery serp fetch n tbs q →
       ∃ link cont, fetch link = .resp 200 cont ∧
         p = ⟨link, storePageContent cont⟩) := by
  refine ⟨fun c => rfl, ?_, processQueryContent⟩
  intro c hc
  rw [storePageContent, List.take_of_length_le hc]

/-- Witness for `c6_truncation_amended` at a concrete short content and a
concrete gateway run. -/
theorem c6_truncation_amended_witness :
    ("abc".toList.length ≤ 5000 ∧
      storePageContent "abc".toList = "abc".toList ++ "...".toList) ∧
    ((⟨"L2", storePageContent "body".toList⟩ : PageResult) ∈
        processQuery serpW fetchW 2 "t" ⟨"q2", "", "", ""⟩ ∧
      ∃ link cont, fetchW link = .resp 200 cont ∧
        (⟨"L2", storePageContent "body".toList⟩ : PageResult) =
          ⟨link, storePageContent cont⟩) :=
  ⟨⟨by decide, c6_truncation_amended.2.1 "abc".toList (by decide)⟩,
   by decide,
   c6_truncation_amended.2.2 serpW fetchW 2 "t" ⟨"q2", "", "", ""⟩
     ⟨"L2", storePageContent "body".toList⟩ (by decide)⟩

/-- C1 (code bug): in the end-to-end scenario, query A's search yields
pages `urlA1`, `urlA2`, query B's yields `urlB1`, and the single extracted
contact comes from `urlA1` (query A's page).  The code nonetheless reports
BOTH query texts as `successful_queries`: the tracking loop (lines 621-626)
tests every page of the whole run against the contact URLs, with no
per-query attribution, so each query is appended as soon as any page
matched. -/
theorem c1_query_attribution_bug :
    serpAB "qdr:m3" "query A" = .resp 200 [⟨some "urlA1"⟩, ⟨some "urlA2"⟩] ∧
    serpAB "qdr:m3" "query B" = .resp 200 [⟨some "urlB1"⟩] ∧
    (analyzeA [] none).map (fun c => c.url) = ["urlA1"] ∧
    (find_intent_signals genPlanAB serpAB fetchOK analyzeA ⟨none, none⟩
        (some healthInput)).map (fun r => r.2.successful_queries) =
      .ok ["query A", "query B"] := by
  refine ⟨by rfl, by rfl, by rfl, by rfl⟩

/-- C7 (code bug): a fresh run stores the narrowed plan as plain query
strings; the subsequent repeat run (no `user_input`) then raises
`TypeError` inside `search_pages` — `query.get('query', '')` on a string
raises `AttributeError` and the handler's `query['query']` raises
`TypeError` — so a repeat run over a non-empty tracked plan never
completes, and no narrowing takes place. -/
theorem c7_repeat_run_crash :
    (find_intent_signals genPlanAB serpAB fetchOK analyzeA ⟨none, none⟩
        (some healthInput)).map
        (fun r => r.1.signals_to_track.map (fun p => p.search_queries)) =
      .ok (some [.str "query A", .str "query B"]) ∧
    (find_intent_signals genPlanAB serpAB fetchOK analyzeA ⟨none, none⟩
        (some healthInput)).bind
        (fun r => find_intent_signals genPlanAB serpAB fetchOK analyzeA
          r.1 none) =
      .error .typeError := by
  refine ⟨by rfl, by rfl⟩

/-- C8 (code bug): the fresh run passes recency filter `qdr:m3`, and the
repeat run (no `user_input`, tracked plan present) passes `qdr:m3` as well
— the same filter, because `self.user_input` persists from the fresh run
and line 607 tests the instance attribute rather than the call's argument,
leaving the `qdr:d` branch dead.  (`analyzeNone` makes the fresh run find
no contacts, so the tracked list is empty and the repeat run completes.) -/
theorem c8_recency_filter_same :
    (find_intent_signals genPlanAB serpAB fetchOK analyzeNone ⟨none, none⟩
        (some healthInput)).map (fun r => r.2.tbs) = .ok "qdr:m3" ∧
    ((find_intent_signals genPlanAB serpAB fetchOK analyzeNone ⟨none, none⟩
        (some healthInput)).bind
        (fun r => find_intent_signals genPlanAB serpAB fetchOK analyzeNone
          r.1 none)).map (fun r => r.2.tbs) = .ok "qdr:m3" := by
  refine ⟨by rfl, by rfl⟩

/-- C9: `get_email` returns the empty string for every input (its body is
an unconditional `return ""`; the discovery/generation code after it is
unreachable), so every contact assembled by `find_company_contacts` has an
empty `email` field. -/
theorem c9_contacts_empty_email :
    (∀ n c, get_email n c = "") ∧
    (∀ (getRoles : String → String → List String)
       (profSearch : String → String → Nat → List Profile)
       (company : CompanySignal) (ui : String) (ct : Contact),
       ct ∈ find_company_contacts getRoles profSearch company ui →
       ct.email = "") := by
  refine ⟨fun _ _ => rfl, ?_⟩
  intro gr ps comp ui ct hct
  simp only [find_company_contacts, List.mem_flatMap, List.mem_map] at hct
  obtain ⟨role, _, profile, _, hcteq⟩ := hct
  rw [← hcteq]
  rfl

/-- Witness for `c9_contacts_empty_email` at concrete oracles. -/
theorem c9_contacts_empty_email_witness :
    (⟨"Jane Roe", "https://linkedin.com/in/janeroe",
        "CTO at HealthTech Inc", "CTO", "CTO at HealthTech Inc", "",
        "HealthTech Inc", ["hiring"], "fit", "urlA1"⟩ : Contact) ∈
      find_company_contacts rolesW profSearchW companyW "need AI" ∧
    (⟨"Jane Roe", "https://linkedin.com/in/janeroe",
        "CTO at HealthTech Inc", "CTO", "CTO at HealthTech Inc", "",
        "HealthTech Inc", ["hiring"], "fit", "urlA1"⟩ : Contact).email = "" :=
  ⟨by decide,
   c9_contacts_empty_email.2 rolesW profSearchW companyW "need AI" _
     (by decide)⟩

theorem parseResultsProvenance (items : List SearchItem) (company : String)
    (p : Profile) (hp : p ∈ parseGoogleResults items company) :
    ∃ item ∈ items,
      pyContains item.link.toList "linkedin.com/in/".toList = true ∧
      pyContains (item.title.toList.map Char.toLower)
        (company.toList.map Char.toLower) = true ∧
      p = profileOfItem item := by
  unfold parseGoogleResults at hp
  obtain ⟨item, hmem, hpi⟩ := List.mem_flatMap.mp hp
  split_ifs at hpi with hlink htitle
  · simp at hpi
    exact ⟨item, hmem, hlink, htitle, hpi⟩
  · simp at hpi
  · simp at hpi

/-- C10: every profile returned by `search_profiles` originates from a
search item whose link contains `linkedin.com/in/` and whose title contains
the company name case-insensitively; and an HTTP exception, a non-200
status, or a 200 body lacking `organic_results` all yield the empty list
rather than raising. -/
theorem c10_profile_filtering :
    (∀ (resp : Except Unit (Nat × Option (List SearchItem)))
       (company : String) (items : List SearchItem) (p : Profile),
       resp = .ok (200, some items) →
       p ∈ search_profiles resp company →
       ∃ item ∈ items,
         pyContains item.link.toList "linkedin.com/in/".toList = true ∧
         pyContains (item.title.toList.map Char.toLower)
           (company.toList.map Char.toLower) = true ∧
         p = profileOfItem item) ∧
    (∀ company, search_profiles (.error ()) company = []) ∧
    (∀ company status organic, status ≠ 200 →
       search_profiles (.ok (status, organic)) company = []) ∧
    (∀ company, search_profiles (.ok (200, none)) company = []) := by
  refine ⟨?_, fun _ => rfl, ?_, fun _ => rfl⟩
  · intro resp company items p hresp hp
    subst hresp
    exact parseResultsProvenance items company p (by simpa [search_profiles] using hp)
  · intro company status organic hs
    simp [search_profiles, hs]

/-- Witness for `c10_profile_filtering` at a concrete response and item. -/
theorem c10_profile_filtering_witness :
    ((Except.ok (200, some [itemW]) :
        Except Unit (Nat × Option (List SearchItem))) =
          .ok (200, some [itemW]) ∧
      profileOfItem itemW ∈
        search_profiles (.ok (200, some [itemW])) "healthtech inc" ∧
      ∃ item ∈ [itemW],
        pyContains item.link.toList "linkedin.com/in/".toList = true ∧
        pyContains (item.title.toList.map Char.toLower)
          (("healthtech inc" : String).toList.map Char.toLower) = true ∧
        profileOfItem itemW = profileOfItem item) ∧
    ((500 : Nat) ≠ 200 ∧
      search_profiles (.ok (500, some [itemW])) "healthtech inc" = []) :=
  ⟨⟨by rfl, by decide,
    c10_profile_filtering.1 (.ok (200, some [itemW])) "healthtech inc"
      [itemW] (profileOfItem itemW) (by rfl) (by decide)⟩,
   by decide,
   c10_profile_filtering.2.2.1 "healthtech inc" 500 (some [itemW])
     (by decide)⟩

end SalesAgent
